import Mathlib

set_option linter.unusedVariables false

/-!
Shallow embedding of the component-tree query, filter, cache and export
engine of this repository, as implemented by
`MockSwingLibrary.get_component_tree` (src/tests/python/conftest.py) and the
`Swing.get_component_tree` wrapper (src/python/JavaGui/__init__.py).

Conventions of the embedding:
* Python `None` / missing string arguments become `Option String`.
* The `max_depth` argument may be `None`, an `int`, or a non-int value in
  Python; it is embedded as `PyVal` (`vNone`, `vInt`, `vStr`).
* Python exceptions become an explicit `Except` result; the mutable
  `self._tree_cache` / `self._tree_call_count` dictionaries become an
  explicit `LibState` threaded through the call.
* Python dicts are insertion-ordered association lists.
-/

/-- The scalar fields of one node of the mock component tree
(the dict literals in `get_component_tree`): `type`, `simpleClass`,
`name`, optional `text`, and the four state booleans. -/
structure CompInfo where
  type : String
  simpleClass : String
  name : String
  text : Option String
  visible : Bool
  enabled : Bool
  showing : Bool
  focusable : Bool
deriving DecidableEq, Repr

/-- One node of the component tree: its scalar fields plus the ordered
`children` list. -/
inductive Comp where
  | mk (info : CompInfo) (children : List Comp)

/-- The scalar fields of a node. -/
def Comp.info : Comp → CompInfo
  | .mk i _ => i

/-- The `children` list of a node. -/
def Comp.children : Comp → List Comp
  | .mk _ cs => cs

/-- The copy the filter emits for a matched node:
`comp_copy = {k: v for k, v in comp.items() if k != 'children'};
comp_copy['children'] = []`. -/
def Comp.clearChildren (c : Comp) : Comp :=
  .mk c.info []

/-- A captured tree: the `roots` list and the `timestamp` field of the
mock tree dict. -/
structure UiTree where
  roots : List Comp
  timestamp : Nat

/-- Induction over `Comp`: to prove `P` for every node it suffices to
prove it for a node assuming it for all its children. -/
def Comp.inductionOn {P : Comp → Prop}
    (step : ∀ i cs, (∀ c ∈ cs, P c) → P (Comp.mk i cs)) : ∀ c, P c
  | .mk i cs => step i cs (fun c hc => Comp.inductionOn step c)
termination_by c => sizeOf c
decreasing_by
  have h₁ := List.sizeOf_lt_of_mem hc
  simp only [Comp.mk.sizeOf_spec]
  omega

/-- All suffixes of a character list, longest first (including the list
itself and the empty suffix). -/
def suffixes : List Char → List (List Char)
  | [] => [[]]
  | c :: s => (c :: s) :: suffixes s

/-- Anchored wildcard matching over character lists: the semantics of
`re.match(f"^{regex_pattern}$", s)` after the source's substitutions
`'*' → '.*'` and `'?' → '.'` (with `'.'` escaped to a literal).
`*` (that is, `.*`) consumes any prefix — the rest of the pattern must
match some suffix; `?` (that is, `.`) consumes exactly one character;
any other character matches itself. -/
def globMatch : List Char → List Char → Bool
  | [], s => s.isEmpty
  | '*' :: ps, s => (suffixes s).any (fun t => globMatch ps t)
  | '?' :: _, [] => false
  | '?' :: ps, _ :: s => globMatch ps s
  | _ :: _, [] => false
  | p :: ps, c :: s => p == c && globMatch ps s

/-- `'*' in pattern or '?' in pattern`: the guard that selects the
wildcard branch of the type match. -/
def hasWildcard (p : String) : Bool :=
  p.toList.contains '*' || p.toList.contains '?'

/-- One include-pattern test on a simple type name: wildcard patterns go
through the regex translation (`globMatch`), other patterns are compared
by string equality (`comp.get('simpleClass') == pattern`). -/
def matchPattern (p : String) (s : String) : Bool :=
  if hasWildcard p then globMatch p.toList s.toList else s == p

/-- Python truthiness of an optional string argument
(`if types:` / `if exclude_types:`). -/
def truthy : Option String → Bool
  | none => false
  | some s => s ≠ ""

/-- `str.split(',')` on the underlying characters: split at every comma;
the empty string splits to one empty field. -/
def pySplitComma (acc : List Char) : List Char → List String
  | [] => [String.mk acc.reverse]
  | ',' :: rest => String.mk acc.reverse :: pySplitComma [] rest
  | c :: rest => pySplitComma (c :: acc) rest

/-- `str.strip()`: remove leading and trailing whitespace. -/
def pyStrip (s : String) : String :=
  String.mk (((s.toList.dropWhile Char.isWhitespace).reverse.dropWhile Char.isWhitespace).reverse)

/-- `[t.strip() for t in s.split(',')]`. -/
def splitEntries (s : String) : List String :=
  (pySplitComma [] s.toList).map pyStrip

/-- `[t.strip() for t in s.split(',') if t.strip()]`, and `[]` when the
argument is falsy: the pattern list actually used by the filter. -/
def patternList : Option String → List String
  | none => []
  | some s => if s = "" then [] else (splitEntries s).filter (· ≠ "")

/-- The filter parameters of one query: the `types`, `exclude_types`
and the three state-filter arguments of `get_component_tree`. -/
structure Query where
  types : Option String
  excludeTypes : Option String
  visibleOnly : Bool
  enabledOnly : Bool
  focusableOnly : Bool
deriving DecidableEq, Repr

/-- `excluded_by_type`: the node's simple type name equals one of the
exclude entries (exact comparison, no wildcard expansion). -/
def excludedByType (q : Query) (i : CompInfo) : Bool :=
  truthy q.excludeTypes && (patternList q.excludeTypes).any (fun p => i.simpleClass == p)

/-- `matches_type`: when `types` is truthy, at least one include pattern
must match the simple type name. -/
def matchesType (q : Query) (i : CompInfo) : Bool :=
  if truthy q.types then (patternList q.types).any (fun p => matchPattern p i.simpleClass)
  else true

/-- `matches_state`: `visible_only` requires `visible` and `showing`,
`enabled_only` requires `enabled`, `focusable_only` requires `focusable`. -/
def matchesState (q : Query) (i : CompInfo) : Bool :=
  !(q.visibleOnly && (!i.visible || !i.showing)) &&
  !(q.enabledOnly && !i.enabled) &&
  !(q.focusableOnly && !i.focusable)

/-- The emit condition of `filter_component`: not excluded, matches the
include patterns, and passes every active state predicate. -/
def shouldEmit (q : Query) (i : CompInfo) : Bool :=
  !excludedByType q i && matchesType q i && matchesState q i

mutual

/-- `filter_component`: returns the flat list of matching components of
one subtree — the node's own copy (children cleared) when it matches,
followed by the matches found in its children (always traversed). -/
def filterOne (q : Query) : Comp → List Comp
  | .mk i cs =>
      (if shouldEmit q i then [Comp.mk i []] else []) ++ filterList q cs

/-- `filter_component` mapped over a list of children
(`for child in children: results.extend(filter_component(child))`). -/
def filterList (q : Query) : List Comp → List Comp
  | [] => []
  | c :: cs => filterOne q c ++ filterList q cs

end

/-- `max_depth` as received from Python: `None`, an `int`, or a string
(standing for any non-integer argument such as `"5"`). -/
inductive PyVal where
  | vNone
  | vInt (i : Int)
  | vStr (s : String)
deriving DecidableEq, Repr

/-- The exceptions `get_component_tree` can raise:
`TypeError` or `ValueError`, with their message. -/
inductive PyErr where
  | typeError (msg : String)
  | valueError (msg : String)
deriving DecidableEq, Repr

/-- The root window of every mock tree. -/
def jFrameInfo : CompInfo :=
  ⟨"JFrame", "JFrame", "mainFrame", none, true, true, true, true⟩

/-- The content pane below the root. -/
def jPanelInfo : CompInfo :=
  ⟨"JPanel", "JPanel", "contentPane", none, true, true, true, false⟩

/-- The login button leaf (`text = "Login"`). -/
def jButtonInfo : CompInfo :=
  ⟨"JButton", "JButton", "loginBtn", some "Login", true, true, true, true⟩

/-- The username field leaf (no `text` key). -/
def jTextFieldInfo : CompInfo :=
  ⟨"JTextField", "JTextField", "usernameField", none, true, true, true, true⟩

/-- The status label leaf (`text = "Ready"`). -/
def jLabelInfo : CompInfo :=
  ⟨"JLabel", "JLabel", "statusLabel", some "Ready", true, true, true, false⟩

/-- The toggle button leaf: not visible, not showing. -/
def jToggleButtonInfo : CompInfo :=
  ⟨"JToggleButton", "JToggleButton", "toggleBtn", none, false, true, false, true⟩

/-- The radio button leaf: visible but not enabled. -/
def jRadioButtonInfo : CompInfo :=
  ⟨"JRadioButton", "JRadioButton", "radioBtn", none, true, false, true, true⟩

/-- The mock tree served for `max_depth == 0`: the root only. -/
def mockTree0 : UiTree :=
  ⟨[.mk jFrameInfo []], 1234567890⟩

/-- The mock tree served for `max_depth == 1`: root and content pane. -/
def mockTree1 : UiTree :=
  ⟨[.mk jFrameInfo [.mk jPanelInfo []]], 1234567890⟩

/-- The mock tree served for `2 <= max_depth <= 5`. -/
def mockTreeShallow : UiTree :=
  ⟨[.mk jFrameInfo [.mk jPanelInfo
      [.mk jButtonInfo [], .mk jTextFieldInfo [], .mk jLabelInfo []]]], 1234567890⟩

/-- The full mock tree served for unlimited depth or `max_depth > 5`. -/
def mockTreeFull : UiTree :=
  ⟨[.mk jFrameInfo [.mk jPanelInfo
      [.mk jButtonInfo [], .mk jTextFieldInfo [], .mk jLabelInfo [],
       .mk jToggleButtonInfo [], .mk jRadioButtonInfo []]]], 1234567890⟩

/-- The `if max_depth == 0 / elif == 1 / elif is not None and <= 5 / else`
chain selecting which mock tree is built.  (A non-integer `max_depth`
cannot reach this point: validation rejects it first.) -/
def buildMockTree : PyVal → UiTree
  | .vInt i =>
      if i = 0 then mockTree0
      else if i = 1 then mockTree1
      else if i ≤ 5 then mockTreeShallow
      else mockTreeFull
  | _ => mockTreeFull

/-- Validation of `max_depth`: a non-integer raises `TypeError`, a
negative integer raises `ValueError`. -/
def validateMaxDepth : PyVal → Option PyErr
  | .vNone => none
  | .vInt i =>
      if i < 0 then some (.valueError ("max_depth must be >= 0, got " ++ toString i))
      else none
  | .vStr _ => some (.typeError "max_depth must be an integer or None, got str")

/-- Validation of a pattern-list argument: when truthy, raise
`ValueError` if any comma-separated entry strips to the empty string. -/
def validatePatterns (listName : String) (o : Option String) : Option PyErr :=
  match o with
  | none => none
  | some s =>
      if s ≠ "" && (splitEntries s).any (· = "") then
        some (.valueError ("Invalid type pattern: empty pattern found in " ++ listName ++ " list"))
      else none

/-- Lookup in an insertion-ordered association list (a Python dict). -/
def lookupAssoc {α : Type} (k : String) : List (String × α) → Option α
  | [] => none
  | (k', v) :: rest => if k' = k then some v else lookupAssoc k rest

/-- `d[k] = v` on a Python dict: replace in place, or append. -/
def insertAssoc {α : Type} (k : String) (v : α) : List (String × α) → List (String × α)
  | [] => [(k, v)]
  | (k', v') :: rest =>
      if k' = k then (k, v) :: rest else (k', v') :: insertAssoc k v rest

/-- `d[k] = d.get(k, 0) + 1` on the call-count dict. -/
def bumpCount (k : String) (counts : List (String × Nat)) : List (String × Nat) :=
  insertAssoc k ((lookupAssoc k counts).getD 0 + 1) counts

/-- The mutable state of a `MockSwingLibrary` instance that
`get_component_tree` touches: `self._tree_cache` and
`self._tree_call_count`. -/
structure LibState where
  cache : List (String × String)
  counts : List (String × Nat)
deriving DecidableEq, Repr

/-- The state of a freshly constructed library: both dicts empty. -/
def initState : LibState := ⟨[], []⟩

/-- Python `str()` of an optional string argument inside an f-string
(`None` renders as `"None"`). -/
def pyStrOpt : Option String → String
  | none => "None"
  | some s => s

/-- Python `str()` of a bool inside an f-string. -/
def pyStrBool : Bool → String
  | true => "True"
  | false => "False"

/-- `cache_key = f"unlimited_{format}_{types}_{exclude_types}_..."`. -/
def cacheKey (format : String) (types excludeTypes : Option String)
    (v e f : Bool) : String :=
  "unlimited_" ++ format ++ "_" ++ pyStrOpt types ++ "_" ++ pyStrOpt excludeTypes ++
  "_" ++ pyStrBool v ++ "_" ++ pyStrBool e ++ "_" ++ pyStrBool f

mutual

/-- `component_to_text`: one line `[simpleClass] name` per node, indented
two spaces per level, followed by the rendering of its children.  (Every
mock node carries a `name`, so the `'-'` default of `comp.get('name', '-')`
never shows.) -/
def componentToText (indent : Nat) : Comp → String
  | .mk i cs =>
      String.mk (List.replicate (2 * indent) ' ') ++
      "[" ++ i.simpleClass ++ "] " ++ i.name ++ "\n" ++ textChildren (indent + 1) cs

/-- `for child in children: text += component_to_text(child, indent + 1)`. -/
def textChildren (indent : Nat) : List Comp → String
  | [] => ""
  | c :: cs => componentToText indent c ++ textChildren indent cs

end

/-- The text encoder: concatenate `component_to_text(root)` over the roots. -/
def textFormat (roots : List Comp) : String :=
  textChildren 0 roots

/-- The simple YAML encoder: a `roots:` header and a `type`/`name` pair
per root. -/
def yamlFormat (roots : List Comp) : String :=
  "roots:\n" ++ String.join (roots.map (fun r =>
    "  - type: " ++ r.info.simpleClass ++ "\n" ++
    "    name: " ++ r.info.name ++ "\n"))

/-- The simple XML encoder: an XML header, one self-closing `<component>`
element per root inside `<uitree>`. -/
def xmlFormat (roots : List Comp) : String :=
  "<?xml version=\"1.0\" encoding=\"UTF-8\"?>\n<uitree>\n" ++
  String.join (roots.map (fun r =>
    "  <component type=\"" ++ r.info.simpleClass ++ "\" name=\"" ++ r.info.name ++ "\" />\n")) ++
  "</uitree>"

/-- `2*k` spaces: the indentation of `json.dumps(..., indent=2)` at
nesting level `k`. -/
def sp (k : Nat) : String :=
  String.mk (List.replicate (2 * k) ' ')

/-- A JSON string literal.  The strings of the mock tree contain no
character that `json.dumps` would escape. -/
def jsonStr (s : String) : String :=
  "\"" ++ s ++ "\""

/-- A JSON boolean literal. -/
def jsonBool : Bool → String
  | true => "true"
  | false => "false"

mutual

/-- `json.dumps` of one component dict at nesting level `k` with
`indent=2`: keys in insertion order (`type`, `simpleClass`, `name`,
optional `text`, the four state booleans, `children`). -/
def jsonComp (k : Nat) : Comp → String
  | .mk i cs =>
      let fields :=
        ["\"type\": " ++ jsonStr i.type,
         "\"simpleClass\": " ++ jsonStr i.simpleClass,
         "\"name\": " ++ jsonStr i.name] ++
        (match i.text with
         | some t => ["\"text\": " ++ jsonStr t]
         | none => []) ++
        ["\"visible\": " ++ jsonBool i.visible,
         "\"enabled\": " ++ jsonBool i.enabled,
         "\"showing\": " ++ jsonBool i.showing,
         "\"focusable\": " ++ jsonBool i.focusable,
         "\"children\": " ++
           (match cs with
            | [] => "[]"
            | _ => "[\n" ++ String.intercalate ",\n" (jsonItems (k + 2) cs) ++
                   "\n" ++ sp (k + 1) ++ "]")]
      "\x7b\n" ++ String.intercalate ",\n" (fields.map (fun f => sp (k + 1) ++ f)) ++
      "\n" ++ sp k ++ "\x7d"

/-- The items of a JSON array of components, each on its own line at
level `k`. -/
def jsonItems (k : Nat) : List Comp → List String
  | [] => []
  | c :: cs => (sp k ++ jsonComp k c) :: jsonItems k cs

end

/-- `json.dumps(filtered_tree, indent=2)` of the whole result dict
`{"roots": [...], "timestamp": ...}`. -/
def jsonFormat (roots : List Comp) (ts : Nat) : String :=
  "\x7b\n  \"roots\": " ++
  (match roots with
   | [] => "[]"
   | _ => "[\n" ++ String.intercalate ",\n" (jsonItems 2 roots) ++ "\n  ]") ++
  ",\n  \"timestamp\": " ++ toString ts ++ "\n\x7d"

/-- The format dispatch of `get_component_tree`: `json`, `yaml` and
`xml` are matched exactly (case-sensitively); every other format string
falls through to the text encoder.  No format name is rejected. -/
def formatOutput (format : String) (roots : List Comp) (ts : Nat) : String :=
  if format = "json" then jsonFormat roots ts
  else if format = "yaml" then yamlFormat roots
  else if format = "xml" then xmlFormat roots
  else textFormat roots

namespace MockSwingLibrary

/-- `MockSwingLibrary.get_component_tree` (src/tests/python/conftest.py):
validate `max_depth` and the two pattern lists, then — only when
`max_depth` is `None` — bump the per-key call counter and consult the
cache; on a miss (or any finite depth) build the mock tree, filter it to
a flat collection, render it in the requested format, and — only when
`max_depth` is `None` — store the string in the cache.

The returned `Bool` records which branch produced the string: `true` for
the early `return self._tree_cache[cache_key]` (a cache hit), `false`
for a freshly computed result.  The `locator` argument is accepted and
never read.  Exceptions become `Except.error`; the state is returned
unchanged in that case. -/
def get_component_tree (st : LibState) (locator : Option String)
    (format : String) (max_depth : PyVal) (types exclude_types : Option String)
    (visible_only enabled_only focusable_only : Bool) :
    Except PyErr (String × Bool) × LibState :=
  match validateMaxDepth max_depth with
  | some e => (.error e, st)
  | none =>
    match validatePatterns "types" types with
    | some e => (.error e, st)
    | none =>
      match validatePatterns "exclude_types" exclude_types with
      | some e => (.error e, st)
      | none =>
        let key := cacheKey format types exclude_types
          visible_only enabled_only focusable_only
        let q : Query := ⟨types, exclude_types,
          visible_only, enabled_only, focusable_only⟩
        match max_depth with
        | .vNone =>
            let counts := bumpCount key st.counts
            match lookupAssoc key st.cache with
            | some v => (.ok (v, true), ⟨st.cache, counts⟩)
            | none =>
                let t := buildMockTree .vNone
                let result := formatOutput format (filterList q t.roots) t.timestamp
                (.ok (result, false), ⟨insertAssoc key result st.cache, counts⟩)
        | d =>
            let t := buildMockTree d
            let result := formatOutput format (filterList q t.roots) t.timestamp
            (.ok (result, false), st)

/-- `MockSwingLibrary.refresh_ui_tree` (conftest.py lines 646-648): the
body is `pass` — it reads and writes nothing. -/
def refresh_ui_tree (st : LibState) : LibState :=
  st

/-- `MockSwingLibrary.get_ui_tree` (conftest.py lines 624-636): three
fixed strings chosen by comparing the first argument with `"json"` and
`"xml"`. -/
def get_ui_tree (format : Option String) (max_depth : Option Int)
    (visible_only : Bool) : String :=
  if format == some "json" then
    "\x7b\"type\": \"JFrame\", \"name\": \"mainFrame\", \"children\": [\x7b\"type\": \"JPanel\", \"name\": \"contentPane\", \"children\": [\x7b\"type\": \"JButton\", \"name\": \"loginBtn\"\x7d]\x7d]\x7d"
  else if format == some "xml" then
    "<component type=\"JFrame\" name=\"mainFrame\"><component type=\"JPanel\" name=\"contentPane\"><component type=\"JButton\" name=\"loginBtn\"/></component></component>"
  else
    "JFrame [mainFrame]\n  JPanel [contentPane]\n    JButton [loginBtn]"

end MockSwingLibrary

namespace Swing

/-- `Swing.get_component_tree` (src/python/JavaGui/__init__.py line 1155):
the body is `tree_str = self._lib.get_ui_tree(locator)` — `locator` is
passed as the first positional argument of the core's `get_ui_tree`,
whose signature is `get_ui_tree(format, max_depth, visible_only)`, and
the keyword's own `format` and `max_depth` arguments are never
forwarded.  `SwingLibrary.get_component_tree`
(src/python/swing_library/__init__.py line 1176) has the identical body.
The core is embedded by `MockSwingLibrary.get_ui_tree`, the stand-in the
repository's test suite installs for it. -/
def get_component_tree (locator : Option String) (format : String)
    (max_depth : Option Int) : String :=
  MockSwingLibrary.get_ui_tree locator none false

end Swing

/-- The string carried by a successful result (and `""` for an error):
used to compare the outputs of two calls. -/
def resultStr : Except PyErr (String × Bool) → String
  | .ok (s, _) => s
  | .error _ => ""

/-- `true` exactly when a result was produced by the early
`return self._tree_cache[cache_key]` branch. -/
def isCacheHit : Except PyErr (String × Bool) → Bool
  | .ok (_, b) => b
  | .error _ => false

/-- `true` exactly when the call did not raise. -/
def isOk : Except PyErr (String × Bool) → Bool
  | .ok _ => true
  | .error _ => false

/-- The empty pattern accepts some suffix of every string (namely the
empty one). -/
theorem suffixes_any_nil (l : List Char) : (suffixes l).any (fun t => globMatch [] t) = true := by
  induction l with
  | nil => rfl
  | cons c s ih => rw [suffixes, List.any_cons, ih, Bool.or_true]

/-- The pattern `*` alone matches every string. -/
theorem globMatch_star (l : List Char) : globMatch ['*'] l = true := by
  cases l with
  | nil => rfl
  | cons c s =>
    show (suffixes (c :: s)).any (fun t => globMatch [] t) = true
    exact suffixes_any_nil _

/-- The pattern `?` alone matches exactly the one-character strings. -/
theorem globMatch_qmark (l : List Char) : globMatch ['?'] l = true ↔ l.length = 1 := by
  cases l with
  | nil => simp [globMatch]
  | cons c s => cases s <;> simp [globMatch]

/-- Membership in the output of the children loop: a component is
collected from a list exactly when it is collected from one of its
elements. -/
theorem mem_filterList {q : Query} {x : Comp} {cs : List Comp} :
    x ∈ filterList q cs ↔ ∃ c ∈ cs, x ∈ filterOne q c := by
  induction cs with
  | nil => simp [filterList]
  | cons c rest ih => simp [filterList, List.mem_append, ih]

/-- Unfolding of `filter_component` on one node. -/
theorem filterOne_eq (q : Query) (i : CompInfo) (cs : List Comp) :
    filterOne q (Comp.mk i cs) =
      (if shouldEmit q i then [Comp.mk i []] else []) ++ filterList q cs := rfl

/-- What passing `matches_state` means field by field. -/
theorem matchesState_spec (q : Query) (i : CompInfo) :
    matchesState q i = true ↔
      ((q.visibleOnly = true → i.visible = true ∧ i.showing = true) ∧
       (q.enabledOnly = true → i.enabled = true) ∧
       (q.focusableOnly = true → i.focusable = true)) := by
  obtain ⟨t, sc, n, tx, vis, en, sh, fo⟩ := i
  obtain ⟨qt, qe, qv, qen, qf⟩ := q
  cases qv <;> cases qen <;> cases qf <;>
    cases vis <;> cases en <;> cases sh <;> cases fo <;> simp [matchesState]

/-- A node is emitted only if it passes `matches_state`. -/
theorem shouldEmit_matchesState {q : Query} {i : CompInfo}
    (h : shouldEmit q i = true) : matchesState q i = true := by
  simp only [shouldEmit, Bool.and_eq_true] at h
  exact h.2

/-- `d` occurs in the subtree rooted at `c`: either it is `c` itself, or
it occurs in the subtree of one of `c`'s children. -/
inductive IsDescendant : Comp → Comp → Prop where
  | refl (c : Comp) : IsDescendant c c
  | child {d c' : Comp} (c : Comp) (hc : c' ∈ c.children)
      (hd : IsDescendant d c') : IsDescendant d c

/-- Everything collected from one child is collected from the list the
child belongs to. -/
theorem filterOne_subset_filterList {q : Query} {c : Comp} {cs : List Comp}
    (hc : c ∈ cs) {x : Comp} (hx : x ∈ filterOne q c) : x ∈ filterList q cs :=
  mem_filterList.2 ⟨c, hc, hx⟩

/-- Any descendant that satisfies the emit condition is collected — the
traversal keeps descending whether or not the ancestors matched. -/
theorem filterOne_descendant {q : Query} {d c : Comp}
    (hd : IsDescendant d c) (he : shouldEmit q d.info = true) :
    Comp.mk d.info [] ∈ filterOne q c := by
  induction hd with
  | refl =>
    cases d with
    | mk i cs =>
      rw [filterOne_eq, List.mem_append]
      left
      simp only [Comp.info] at he ⊢
      rw [if_pos he]
      exact List.mem_singleton.2 rfl
  | child c hc hd ih =>
    cases c with
    | mk i cs =>
      rw [filterOne_eq, List.mem_append]
      right
      exact filterOne_subset_filterList hc ih

/-- If a node's simple type name is one of the exclude entries, the
exclude test fires. -/
theorem excludedByType_of_mem {q : Query} {i : CompInfo}
    (h : i.simpleClass ∈ patternList q.excludeTypes) : excludedByType q i = true := by
  have ht : truthy q.excludeTypes = true := by
    cases hq : q.excludeTypes with
    | none => rw [hq] at h; simp [patternList] at h
    | some s =>
      rcases eq_or_ne s "" with hs | hs
      · rw [hq, hs] at h; simp [patternList] at h
      · simp [truthy, hq, hs]
  simp only [excludedByType, ht, Bool.true_and, List.any_eq_true]
  exact ⟨_, h, by simp⟩

/-- C5: include-pattern wildcard matching maps `*` to any run of
characters and `?` to exactly one character, is anchored to the whole
simple type name and case-sensitive; `J*Button` matches `JButton`,
`JToggleButton` and `JRadioButton` but not `JTextField` (nor the
lower-case pattern, a suffix pattern, or a non-anchored fragment). -/
theorem c5_wildcard_semantics :
    (∀ s : String, matchPattern "*" s = true) ∧
    (∀ s : String, matchPattern "?" s = true ↔ s.length = 1) ∧
    matchPattern "J*Button" "JButton" = true ∧
    matchPattern "J*Button" "JToggleButton" = true ∧
    matchPattern "J*Button" "JRadioButton" = true ∧
    matchPattern "J*Button" "JTextField" = false ∧
    matchPattern "j*button" "JButton" = false ∧
    matchPattern "J*B" "JButton" = false ∧
    matchPattern "Button" "JButton" = false := by
  refine ⟨?_, ?_, by decide, by decide, by decide, by decide, by decide, by decide, by decide⟩
  · intro s
    simp only [matchPattern, if_pos (show hasWildcard "*" = true by decide)]
    rw [(show ("*" : String).toList = ['*'] by decide)]
    exact globMatch_star _
  · intro s
    simp only [matchPattern, if_pos (show hasWildcard "?" = true by decide)]
    rw [(show ("?" : String).toList = ['?'] by decide), globMatch_qmark]
    exact Iff.rfl

/-- C7: the three state predicates are conjunctive: every component in
the filter output is visible and showing when `visible_only` is set,
enabled when `enabled_only` is set, and focusable when `focusable_only`
is set; a node failing an active predicate contributes nothing. -/
theorem c7_state_predicates (q : Query) :
    ∀ c, ∀ x ∈ filterOne q c,
      ((q.visibleOnly = true → x.info.visible = true ∧ x.info.showing = true) ∧
       (q.enabledOnly = true → x.info.enabled = true) ∧
       (q.focusableOnly = true → x.info.focusable = true)) := by
  intro c
  induction c using Comp.inductionOn with
  | step i cs ih =>
    intro x hx
    rw [filterOne_eq, List.mem_append] at hx
    rcases hx with hx | hx
    · by_cases he : shouldEmit q i = true
      · rw [if_pos he] at hx
        have hxe : x = Comp.mk i [] := List.mem_singleton.1 hx
        subst hxe
        have hm := (matchesState_spec q i).1 (shouldEmit_matchesState he)
        simpa [Comp.info] using hm
      · rw [if_neg he] at hx
        simp at hx
    · rcases mem_filterList.1 hx with ⟨c', hc', hx'⟩
      exact ih c' hc' x hx'

/-- Witness for C7 at a concrete input: with all three state filters
set, the login button (visible, enabled, showing, focusable) is in the
output and carries the asserted state. -/
theorem c7_state_predicates_witness :
    ((⟨none, none, true, true, true⟩ : Query).visibleOnly = true →
       (Comp.mk jButtonInfo []).info.visible = true ∧
       (Comp.mk jButtonInfo []).info.showing = true) ∧
    ((⟨none, none, true, true, true⟩ : Query).enabledOnly = true →
       (Comp.mk jButtonInfo []).info.enabled = true) ∧
    ((⟨none, none, true, true, true⟩ : Query).focusableOnly = true →
       (Comp.mk jButtonInfo []).info.focusable = true) :=
  c7_state_predicates ⟨none, none, true, true, true⟩ (Comp.mk jButtonInfo [])
    (Comp.mk jButtonInfo [])
    (by
      rw [filterOne_eq,
        if_pos (show shouldEmit ⟨none, none, true, true, true⟩ jButtonInfo = true by decide)]
      exact List.mem_append.2 (Or.inl (List.mem_singleton.2 rfl)))

/-- C8: the filter produces a flat collection — every emitted node has
its children cleared — and any descendant satisfying the emit condition
is collected, whether or not its ancestors matched. -/
theorem c8_flat_collection :
    (∀ (q : Query) (c : Comp), ∀ x ∈ filterOne q c, x.children = []) ∧
    (∀ (q : Query) (c d : Comp), IsDescendant d c → shouldEmit q d.info = true →
       Comp.mk d.info [] ∈ filterOne q c) := by
  constructor
  · intro q c
    induction c using Comp.inductionOn with
    | step i cs ih =>
      intro x hx
      rw [filterOne_eq, List.mem_append] at hx
      rcases hx with hx | hx
      · by_cases he : shouldEmit q i = true
        · rw [if_pos he] at hx
          rw [List.mem_singleton.1 hx]
          rfl
        · rw [if_neg he] at hx
          simp at hx
      · rcases mem_filterList.1 hx with ⟨c', hc', hx'⟩
        exact ih c' hc' x hx'
  · intro q c d hd he
    exact filterOne_descendant hd he

/-- Witness for C8 at a concrete input: the `JButton` leaf is a
descendant of a non-matching `JFrame` root (through a non-matching
`JPanel`), is included in the output with empty children. -/
theorem c8_flat_collection_witness :
    (Comp.mk jButtonInfo []).children = [] ∧
    Comp.mk jButtonInfo [] ∈
      filterOne ⟨some "JButton", none, false, false, false⟩
        (Comp.mk jFrameInfo [Comp.mk jPanelInfo [Comp.mk jButtonInfo []]]) :=
  have h2 : Comp.mk jButtonInfo [] ∈
      filterOne ⟨some "JButton", none, false, false, false⟩
        (Comp.mk jFrameInfo [Comp.mk jPanelInfo [Comp.mk jButtonInfo []]]) :=
    c8_flat_collection.2 ⟨some "JButton", none, false, false, false⟩
      (Comp.mk jFrameInfo [Comp.mk jPanelInfo [Comp.mk jButtonInfo []]])
      (Comp.mk jButtonInfo [])
      (IsDescendant.child _ (List.Mem.head _)
        (IsDescendant.child _ (List.Mem.head _) (IsDescendant.refl _)))
      (by decide)
  ⟨c8_flat_collection.1 ⟨some "JButton", none, false, false, false⟩
      (Comp.mk jFrameInfo [Comp.mk jPanelInfo [Comp.mk jButtonInfo []]])
      (Comp.mk jButtonInfo []) h2,
   h2⟩

/-- C2 counterexample: the exclude pattern `J*Button` glob-matches the
simple type name `JButton`, yet the `JButton` node is not dropped — the
exclude test uses exact string equality, not the include glob
semantics. -/
theorem c2_exclude_glob_counterexample :
    matchPattern "J*Button" jButtonInfo.simpleClass = true ∧
    filterOne ⟨none, some "J*Button", false, false, false⟩ (Comp.mk jButtonInfo []) =
      [Comp.mk jButtonInfo []] :=
  ⟨by decide, rfl⟩

/-- C2 as amended: a node whose simple type name exactly equals one of
the exclude entries contributes nothing itself — only its children are
traversed — whatever the include patterns say (exclude wins over
include). -/
theorem c2_exclude_exact_amended (q : Query) (c : Comp)
    (h : c.info.simpleClass ∈ patternList q.excludeTypes) :
    filterOne q c = filterList q c.children := by
  cases c with
  | mk i cs =>
    have he : excludedByType q i = true :=
      excludedByType_of_mem (by simpa [Comp.info] using h)
    have hs : shouldEmit q i = false := by simp [shouldEmit, he]
    simp [filterOne_eq, hs, Comp.children]

/-- Witness for the amended C2: with `JButton` present in both the
include and the exclude list, the `JButton` node is excluded. -/
theorem c2_exclude_exact_amended_witness :
    filterOne ⟨some "JButton", some "JButton", false, false, false⟩ (Comp.mk jButtonInfo []) =
      filterList ⟨some "JButton", some "JButton", false, false, false⟩
        (Comp.mk jButtonInfo []).children :=
  c2_exclude_exact_amended _ _ (by decide)

/-- C1 counterexample: `get_component_tree` performs no format
validation — `format="bogus"` succeeds instead of raising a
FormatError, and `"yaml"` and `"YAML"` return different strings (the
matching is case-sensitive, with no aliases). -/
theorem c1_no_format_validation_counterexample :
    isOk (MockSwingLibrary.get_component_tree initState none "bogus" .vNone
        none none false false false).1 = true ∧
    resultStr (MockSwingLibrary.get_component_tree initState none "yaml" .vNone
        none none false false false).1 ≠
      resultStr (MockSwingLibrary.get_component_tree initState none "YAML" .vNone
        none none false false false).1 :=
  ⟨rfl, by decide⟩

/-- C1 as amended: no format name is rejected; any format other than
exactly `json`, `yaml`, `xml` (case-sensitively) is rendered by the text
encoder, so `bogus`, `YAML` and `yml` all succeed and return the same
string — the text rendering, not the YAML one. -/
theorem c1_format_fallthrough_amended :
    (∀ (fmt : String) (roots : List Comp) (ts : Nat),
        fmt ≠ "json" → fmt ≠ "yaml" → fmt ≠ "xml" →
        formatOutput fmt roots ts = textFormat roots) ∧
    (MockSwingLibrary.get_component_tree initState none "bogus" .vNone
        none none false false false).1 =
      (MockSwingLibrary.get_component_tree initState none "YAML" .vNone
        none none false false false).1 ∧
    (MockSwingLibrary.get_component_tree initState none "YAML" .vNone
        none none false false false).1 =
      (MockSwingLibrary.get_component_tree initState none "yml" .vNone
        none none false false false).1 ∧
    isOk (MockSwingLibrary.get_component_tree initState none "yml" .vNone
        none none false false false).1 = true := by
  refine ⟨?_, rfl, rfl, rfl⟩
  intro fmt roots ts h1 h2 h3
  unfold formatOutput
  rw [if_neg h1, if_neg h2, if_neg h3]

/-- Witness for the amended C1: `bogus` is none of the three recognized
names and renders through the text encoder. -/
theorem c1_format_fallthrough_amended_witness :
    formatOutput "bogus" mockTreeFull.roots 1234567890 = textFormat mockTreeFull.roots :=
  c1_format_fallthrough_amended.1 "bogus" mockTreeFull.roots 1234567890
    (by decide) (by decide) (by decide)

/-- C4 (bug evidence): in the `Swing` keyword wrapper the locator is
forwarded as the format argument of the core's `get_ui_tree`, so two
calls that agree on `format` and `max_depth` and differ only in the
locator can return different strings — contradicting the wrapper's own
regression tests, which require `get_ui_tree(format, max_depth,
visible_only)` and a deprecation warning for `locator`. -/
theorem c4_locator_changes_wrapper_result :
    Swing.get_component_tree (some "json") "text" none ≠
      Swing.get_component_tree none "text" none := by decide

/-- C6: a call with a finite `max_depth` leaves the library state — the
cache dict and the per-key call counters — exactly as it was: the cache
is neither consulted nor populated. -/
theorem c6_finite_depth_bypasses_cache (st : LibState) (locator : Option String)
    (format : String) (i : Int) (types exclude_types : Option String)
    (v e f : Bool) :
    (MockSwingLibrary.get_component_tree st locator format (.vInt i)
        types exclude_types v e f).2 = st := by
  unfold MockSwingLibrary.get_component_tree
  cases validateMaxDepth (.vInt i) with
  | some e' => rfl
  | none =>
    cases validatePatterns "types" types with
    | some e' => rfl
    | none =>
      cases validatePatterns "exclude_types" exclude_types with
      | some e' => rfl
      | none => rfl

/-- C3 counterexample: after one unlimited-depth export, calling the
refresh keyword does not empty the cache, and the next export with
unchanged parameters is served from the cache instead of being
recomputed. -/
theorem c3_refresh_noop_counterexample :
    (MockSwingLibrary.refresh_ui_tree
        (MockSwingLibrary.get_component_tree initState none "text" .vNone
          none none false false false).2).cache ≠ [] ∧
    isCacheHit (MockSwingLibrary.get_component_tree
        (MockSwingLibrary.refresh_ui_tree
          (MockSwingLibrary.get_component_tree initState none "text" .vNone
            none none false false false).2)
        none "text" .vNone none none false false false).1 = true :=
  ⟨by decide, rfl⟩

/-- An unlimited-depth call on a state whose cache holds the key returns
the stored string through the cache-hit branch. -/
theorem gct_unlimited_hit (st : LibState) (locator : Option String)
    (format : String) (v e f : Bool) (s : String)
    (h : lookupAssoc (cacheKey format none none v e f) st.cache = some s) :
    MockSwingLibrary.get_component_tree st locator format .vNone none none v e f =
      (.ok (s, true), ⟨st.cache, bumpCount (cacheKey format none none v e f) st.counts⟩) := by
  simp only [MockSwingLibrary.get_component_tree, validateMaxDepth, validatePatterns]
  rw [h]

/-- C3 as amended: the refresh keyword is a no-op — the state, in
particular every cache entry, is unchanged — and the next
unlimited-depth export with unchanged parameters whose key is cached
returns the previously stored string via the cache-hit branch instead
of recomputing. -/
theorem c3_refresh_noop_amended :
    (∀ st, MockSwingLibrary.refresh_ui_tree st = st) ∧
    (∀ (st : LibState) (locator : Option String) (format : String) (s : String),
        lookupAssoc (cacheKey format none none false false false) st.cache = some s →
        (MockSwingLibrary.get_component_tree (MockSwingLibrary.refresh_ui_tree st)
            locator format .vNone none none false false false).1 = .ok (s, true)) := by
  refine ⟨fun st => rfl, ?_⟩
  intro st locator format s h
  rw [show MockSwingLibrary.refresh_ui_tree st = st from rfl, gct_unlimited_hit st locator format false false false s h]

/-- Witness for the amended C3: a state whose cache holds the key of the
default text query returns the cached string after a refresh. -/
theorem c3_refresh_noop_amended_witness :
    (MockSwingLibrary.get_component_tree
        (MockSwingLibrary.refresh_ui_tree
          ⟨[(cacheKey "text" none none false false false, "cached")], []⟩)
        none "text" .vNone none none false false false).1 = .ok ("cached", true) :=
  c3_refresh_noop_amended.2 ⟨[(cacheKey "text" none none false false false, "cached")], []⟩
    none "text" "cached" (by decide)

/-- C10: a call that raises — for an invalid `max_depth` or a pattern
list with an empty entry — leaves the library state exactly as it was:
the raise happens before any cache read or write and before any counter
update. -/
theorem c10_validation_atomic (st : LibState) (locator : Option String)
    (format : String) (d : PyVal) (types exclude_types : Option String)
    (v e f : Bool) (err : PyErr)
    (h : (MockSwingLibrary.get_component_tree st locator format d
        types exclude_types v e f).1 = .error err) :
    (MockSwingLibrary.get_component_tree st locator format d
        types exclude_types v e f).2 = st := by
  simp only [MockSwingLibrary.get_component_tree] at h ⊢
  revert h
  cases validateMaxDepth d with
  | some e1 => intro h; rfl
  | none =>
    cases validatePatterns "types" types with
    | some e1 => intro h; rfl
    | none =>
      cases validatePatterns "exclude_types" exclude_types with
      | some e1 => intro h; rfl
      | none =>
        cases d with
        | vNone =>
          cases lookupAssoc (cacheKey format types exclude_types v e f) st.cache with
          | some s => intro h; simp at h
          | none => intro h; simp at h
        | vInt i => intro h; simp at h
        | vStr s => intro h; simp at h

/-- Witness for C10: the failed call with a negative depth returns its
state untouched. -/
theorem c10_validation_atomic_witness :
    (MockSwingLibrary.get_component_tree
        ⟨[("k", "v")], [("k", 1)]⟩ none "text" (.vInt (-1))
        none none false false false).2 = ⟨[("k", "v")], [("k", 1)]⟩ :=
  c10_validation_atomic ⟨[("k", "v")], [("k", 1)]⟩ none "text" (.vInt (-1))
    none none false false false
    (.valueError "max_depth must be >= 0, got -1") rfl

/-- C9: validation fails fast — a non-integer `max_depth` raises
`TypeError`, a negative one raises `ValueError`, a `types` or
`exclude_types` string with an entry that strips to empty raises
`ValueError`, and for every valid combination (depth `None` or a
non-negative integer, pattern lists without empty entries) no
validation error is raised. -/
theorem c9_fail_fast_validation :
    (∀ (st : LibState) (locator : Option String) (format s : String)
        (types exclude_types : Option String) (v e f : Bool),
        (MockSwingLibrary.get_component_tree st locator format (.vStr s)
            types exclude_types v e f).1 =
          .error (.typeError "max_depth must be an integer or None, got str")) ∧
    (∀ (st : LibState) (locator : Option String) (format : String) (i : Int)
        (types exclude_types : Option String) (v e f : Bool), i < 0 →
        (MockSwingLibrary.get_component_tree st locator format (.vInt i)
            types exclude_types v e f).1 =
          .error (.valueError ("max_depth must be >= 0, got " ++ toString i))) ∧
    (∀ (st : LibState) (locator : Option String) (format : String) (d : PyVal)
        (s : String) (exclude_types : Option String) (v e f : Bool),
        validateMaxDepth d = none → s ≠ "" → (splitEntries s).any (· = "") = true →
        (MockSwingLibrary.get_component_tree st locator format d
            (some s) exclude_types v e f).1 =
          .error (.valueError "Invalid type pattern: empty pattern found in types list")) ∧
    (∀ (st : LibState) (locator : Option String) (format : String) (d : PyVal)
        (types : Option String) (s : String) (v e f : Bool),
        validateMaxDepth d = none → validatePatterns "types" types = none →
        s ≠ "" → (splitEntries s).any (· = "") = true →
        (MockSwingLibrary.get_component_tree st locator format d
            types (some s) v e f).1 =
          .error (.valueError "Invalid type pattern: empty pattern found in exclude_types list")) ∧
    (∀ (st : LibState) (locator : Option String) (format : String) (d : PyVal)
        (types exclude_types : Option String) (v e f : Bool),
        (d = .vNone ∨ ∃ i : Int, 0 ≤ i ∧ d = .vInt i) →
        (∀ s, types = some s → (splitEntries s).any (· = "") = false) →
        (∀ s, exclude_types = some s → (splitEntries s).any (· = "") = false) →
        isOk (MockSwingLibrary.get_component_tree st locator format d
            types exclude_types v e f).1 = true) := by
  refine ⟨?_, ?_, ?_, ?_, ?_⟩
  · intro st locator format s types exclude_types v e f
    simp only [MockSwingLibrary.get_component_tree, validateMaxDepth]
  · intro st locator format i types exclude_types v e f h
    simp only [MockSwingLibrary.get_component_tree, validateMaxDepth]
    rw [if_pos h]
  · intro st locator format d s exclude_types v e f hvm hs hany
    have hv : validatePatterns "types" (some s) =
        some (.valueError "Invalid type pattern: empty pattern found in types list") := by
      simp [validatePatterns, hs, hany]
    simp only [MockSwingLibrary.get_component_tree]
    rw [hvm, hv]
  · intro st locator format d types s v e f hvm hvt hs hany
    have hv : validatePatterns "exclude_types" (some s) =
        some (.valueError "Invalid type pattern: empty pattern found in exclude_types list") := by
      simp [validatePatterns, hs, hany]
    simp only [MockSwingLibrary.get_component_tree]
    rw [hvm, hvt, hv]
  · intro st locator format d types exclude_types v e f hd ht he
    have hvt : validatePatterns "types" types = none := by
      cases types with
      | none => rfl
      | some s => simp [validatePatterns, ht s rfl]
    have hve : validatePatterns "exclude_types" exclude_types = none := by
      cases exclude_types with
      | none => rfl
      | some s => simp [validatePatterns, he s rfl]
    rcases hd with rfl | ⟨i, hi, rfl⟩
    · simp only [MockSwingLibrary.get_component_tree]
      rw [hvt, hve]
      cases lookupAssoc (cacheKey format types exclude_types v e f) st.cache with
      | some s => rfl
      | none => rfl
    · simp only [MockSwingLibrary.get_component_tree, validateMaxDepth]
      rw [if_neg (by omega : ¬ (i < 0)), hvt, hve]
      rfl

/-- Witness for C9 at concrete inputs: each invalid shape raises the
announced error, and a fully valid call succeeds. -/
theorem c9_fail_fast_validation_witness :
    (MockSwingLibrary.get_component_tree initState none "text" (.vStr "5")
        none none false false false).1 =
      .error (.typeError "max_depth must be an integer or None, got str") ∧
    (MockSwingLibrary.get_component_tree initState none "text" (.vInt (-1))
        none none false false false).1 =
      .error (.valueError ("max_depth must be >= 0, got " ++ toString (-1 : Int))) ∧
    (MockSwingLibrary.get_component_tree initState none "text" .vNone
        (some "JButton,,JTextField") none false false false).1 =
      .error (.valueError "Invalid type pattern: empty pattern found in types list") ∧
    (MockSwingLibrary.get_component_tree initState none "text" .vNone
        (some "JButton") (some " ") false false false).1 =
      .error (.valueError "Invalid type pattern: empty pattern found in exclude_types list") ∧
    isOk (MockSwingLibrary.get_component_tree initState none "text" (.vInt 2)
        (some "JButton,JLabel") (some "JPanel") false false false).1 = true :=
  ⟨c9_fail_fast_validation.1 initState none "text" "5" none none false false false,
   c9_fail_fast_validation.2.1 initState none "text" (-1) none none false false false (by decide),
   c9_fail_fast_validation.2.2.1 initState none "text" .vNone "JButton,,JTextField"
     none false false false rfl (by decide) (by decide),
   c9_fail_fast_validation.2.2.2.1 initState none "text" .vNone (some "JButton") " "
     false false false rfl rfl (by decide) (by decide),
   c9_fail_fast_validation.2.2.2.2 initState none "text" (.vInt 2)
     (some "JButton,JLabel") (some "JPanel") false false false
     (Or.inr ⟨2, by decide, rfl⟩)
     (fun s hs => by cases hs; decide)
     (fun s hs => by cases hs; decide)⟩
